import Mathlib

/-!
# Verification of the car-picker distractor-selection engine

Shallow embedding of `car_picker/app/options.py`.

The dataframe handed to the engine (built by `load_metadata` in
`streamlit_app.py`) stores every column as a string (`year` is cast with
`astype(str)`), and its index is a `RangeIndex` of distinct integers, so a
record is a structure of six strings and the dataset is a list of
(index, record) pairs.  The caller-supplied `random.Random` is modelled as an
explicit state `σ` together with a `shuffle` function `List Nat → σ → List Nat × σ`;
every call the Python code makes to `rng.shuffle` threads this state.  A real
`random.Random` always produces a permutation of its input, which is the
`GoodShuffle` hypothesis.  The Python `set` used for `selected_set` is modelled
as a duplicate-free list maintained in insertion order; the code only ever
consumes it through a final `rng.shuffle`, so only its membership matters.
The three raised exceptions (`ValueError`, `KeyError`, `RuntimeError`) become
the three constructors of `GenError`.
-/

/-- One dataframe row: the columns `build_option_label` and `generate_options`
read.  All fields are strings, matching `load_metadata`'s `astype(str)` casts. -/
structure Row where
  make_en : String
  make_ko : String
  model_en : String
  model_ko : String
  year : String
  variant : String
deriving DecidableEq, Repr

instance : Inhabited Row := ⟨⟨"", "", "", "", "", ""⟩⟩

/-- The dataset: ordered rows, each carrying its index label. -/
abbrev DataFrame := List (Nat × Row)

/-- `OptionItem` from `options.py`: a frozen dataclass `(row_idx, label)`. -/
structure OptionItem where
  row_idx : Nat
  label : String
deriving DecidableEq, Repr

/-- The three exceptions `generate_options` can raise:
`ValueError` (empty dataframe), `KeyError` (unknown index),
`RuntimeError` (not enough candidates). -/
inductive GenError where
  | emptyDataset
  | unknownRecord
  | insufficientCandidates
deriving DecidableEq, Repr

deriving instance DecidableEq for Except

/-- Python's `str.lower()`, character by character (the difficulty strings are
ASCII, where this is exact). -/
def strLower (s : String) : String := ⟨s.data.map Char.toLower⟩

/-- `build_option_label(row)`: bilingual make/model segments, year, optional
variant, joined with spaces, empty parts dropped.  All parts are strings, so
Python's `if part` truthiness test is exactly the non-emptiness test. -/
def build_option_label (row : Row) : String :=
  let make := if row.make_ko ≠ "" then row.make_ko ++ "(" ++ row.make_en ++ ")" else row.make_en
  let model := if row.model_ko ≠ "" then row.model_ko ++ "(" ++ row.model_en ++ ")" else row.model_en
  let components := [make, model, row.year] ++ (if row.variant ≠ "" then [row.variant] else [])
  String.intercalate " " (components.filter (fun part => part ≠ ""))

/-- The index labels of the dataframe (`df.index.tolist()`). -/
def dfIndex (df : DataFrame) : List Nat := df.map Prod.fst

/-- `df.loc[idx]`: the first row carrying label `idx`, when one exists. -/
def loc (df : DataFrame) (idx : Nat) : Option Row :=
  (df.find? (fun p => p.1 == idx)).map Prod.snd

/-- `df.loc[idx]` where the label is known to be present (junk row otherwise). -/
def locD (df : DataFrame) (idx : Nat) : Row :=
  (loc df idx).getD default

/-- `_candidate_indices(df, mask, exclude)`: labels of the rows satisfying the
mask, in dataframe order, with the excluded labels skipped. -/
def candidateIndices (df : DataFrame) (mask : Nat × Row → Bool) (exclude : List Nat) : List Nat :=
  ((df.filter mask).map Prod.fst).filter (fun i => !exclude.contains i)

/-- Python's `set.add` on the insertion-ordered list model of `selected_set`. -/
def addElem (sel : List Nat) (i : Nat) : List Nat :=
  if i ∈ sel then sel else sel ++ [i]

/-- The candidate-consuming loop shared by `try_add` and the fill phase:
add candidates one by one, stopping as soon as `total` entries are selected. -/
def addCandidates (total : Nat) (sel : List Nat) : List Nat → List Nat
  | [] => sel
  | c :: rest =>
    if total ≤ (addElem sel c).length then addElem sel c
    else addCandidates total (addElem sel c) rest

/-- `try_add(mask, target, different_make)` from `generate_options`: skip when
already full or the target is zero, collect unselected candidates, optionally
drop candidates sharing the correct record's make, shuffle, and take up to
`target` of them. -/
def tryAdd {σ : Type} (shuffle : List Nat → σ → List Nat × σ) (df : DataFrame)
    (correctMake : String) (total : Nat) (mask : Nat × Row → Bool) (target : Nat)
    (differentMake : Bool) (st : List Nat × σ) : List Nat × σ :=
  let sel := st.1
  if total ≤ sel.length ∨ target = 0 then st
  else
    let cands0 := candidateIndices df mask sel
    let cands := if differentMake then
        cands0.filter (fun i => !((locD df i).make_en == correctMake))
      else cands0
    let shuffled := shuffle cands st.2
    (addCandidates total sel (shuffled.1.take target), shuffled.2)

/-- Mask of the `same_make` quota sub-phase:
`df["make_en"].eq(correct make) & (df.index != correct_idx)`. -/
def sameMakeMask (correct_idx : Nat) (correctRow : Row) : Nat × Row → Bool :=
  fun p => p.2.make_en == correctRow.make_en && p.1 != correct_idx

/-- Mask of the `same_model` quota sub-phase: same model, different year,
not the correct index. -/
def sameModelMask (correct_idx : Nat) (correctRow : Row) : Nat × Row → Bool :=
  fun p => p.2.model_en == correctRow.model_en && p.2.year != correctRow.year
    && p.1 != correct_idx

/-- Mask of the `same_year` quota sub-phase: same year, not the correct index. -/
def sameYearMask (correct_idx : Nat) (correctRow : Row) : Nat × Row → Bool :=
  fun p => p.2.year == correctRow.year && p.1 != correct_idx

/-- Whether the row at label `i` shares the correct record's make
(`df.loc[idx, "make_en"] == correct_row["make_en"]`). -/
def sharesMake (df : DataFrame) (correctMake : String) (i : Nat) : Bool :=
  (locD df i).make_en == correctMake

/-- The fill phase of `generate_options`: when the selection is still short,
shuffle all unselected labels, reorder by difficulty intent (easy: different
makes first; hard: same make first), and add until full. -/
def fillPhase {σ : Type} (shuffle : List Nat → σ → List Nat × σ) (df : DataFrame)
    (correctMake : String) (total : Nat) (isEasy isHard : Bool)
    (st : List Nat × σ) : List Nat × σ :=
  let sel := st.1
  if sel.length < total then
    let remaining := (dfIndex df).filter (fun i => !sel.contains i)
    let shuffled := shuffle remaining st.2
    let ordered :=
      if isEasy then
        shuffled.1.filter (fun i => !sharesMake df correctMake i)
          ++ shuffled.1.filter (fun i => sharesMake df correctMake i)
      else if isHard then
        shuffled.1.filter (fun i => sharesMake df correctMake i)
          ++ shuffled.1.filter (fun i => !sharesMake df correctMake i)
      else shuffled.1
    (addCandidates total sel ordered, shuffled.2)
  else st

/-- Per-difficulty quota table (`difficulty_plan`). -/
structure Plan where
  same_make : Nat
  same_model : Nat
  same_year : Nat
deriving DecidableEq, Repr

/-- `difficulty_plan.get(difficulty, difficulty_plan["medium"])`. -/
def difficultyPlan (d : String) : Plan :=
  if d = "easy" then ⟨2, 1, 1⟩
  else if d = "medium" then ⟨4, 2, 2⟩
  else if d = "hard" then ⟨6, 3, 1⟩
  else ⟨4, 2, 2⟩

/-- The clamp `total_options = max(2, min(total_options, available_count))`.
`total_options` is a Python int, so it enters as an `Int`; the clamped value is
at least 2, hence a `Nat`. -/
def clampTotal (total_options : Int) (n : Nat) : Nat :=
  (max 2 (min total_options (n : Int))).toNat

/-- The selection pipeline of `generate_options`: start from `{correct_idx}`,
run the three quota sub-phases in source order (`same_make`, `same_model`,
`same_year`, the last excluding same-make candidates exactly on easy
difficulty), then the fill phase. -/
def selectedAfterPhases {σ : Type} (shuffle : List Nat → σ → List Nat × σ)
    (df : DataFrame) (correct_idx : Nat) (total : Nat) (plan : Plan)
    (isEasy isHard : Bool) (s : σ) : List Nat × σ :=
  fillPhase shuffle df (locD df correct_idx).make_en total isEasy isHard
    (tryAdd shuffle df (locD df correct_idx).make_en total
      (sameYearMask correct_idx (locD df correct_idx)) plan.same_year isEasy
      (tryAdd shuffle df (locD df correct_idx).make_en total
        (sameModelMask correct_idx (locD df correct_idx)) plan.same_model false
        (tryAdd shuffle df (locD df correct_idx).make_en total
          (sameMakeMask correct_idx (locD df correct_idx)) plan.same_make false
          ([correct_idx], s))))

/-- The final shuffle and materialization: shuffle the selected labels, truncate
to `total`, and build one `OptionItem` per label via `build_option_label`. -/
def finalOptions {σ : Type} (shuffle : List Nat → σ → List Nat × σ)
    (df : DataFrame) (total : Nat) (st : List Nat × σ) : List OptionItem × σ :=
  (((shuffle st.1 st.2).1.take total).map
      (fun i => OptionItem.mk i (build_option_label (locD df i))),
    (shuffle st.1 st.2).2)

/-- Body of `generate_options` after the difficulty string has been lowered and
read: the code consumes `difficulty` only through the plan lookup and the two
comparisons `difficulty == "easy"` / `difficulty == "hard"`, which enter here
as `plan`, `isEasy`, `isHard`.  Validation order follows the source: empty
check, clamp, index check, phases, shortfall check. -/
def generateCore {σ : Type} (shuffle : List Nat → σ → List Nat × σ) (df : DataFrame)
    (correct_idx : Nat) (total_options : Int) (plan : Plan) (isEasy isHard : Bool)
    (s : σ) : Except GenError (List OptionItem × σ) :=
  if df.length = 0 then .error .emptyDataset
  else if correct_idx ∈ dfIndex df then
    if (selectedAfterPhases shuffle df correct_idx (clampTotal total_options df.length)
        plan isEasy isHard s).1.length < clampTotal total_options df.length then
      .error .insufficientCandidates
    else
      .ok (finalOptions shuffle df (clampTotal total_options df.length)
        (selectedAfterPhases shuffle df correct_idx (clampTotal total_options df.length)
          plan isEasy isHard s))
  else .error .unknownRecord

/-- `generate_options(df, correct_idx, total_options, difficulty, rng)`.
Validation order follows the source: empty check, clamp, index check; the
difficulty string is lower-cased and then read only through the plan table and
the `== "easy"` / `== "hard"` comparisons. -/
def generate_options {σ : Type} (shuffle : List Nat → σ → List Nat × σ) (df : DataFrame)
    (correct_idx : Nat) (total_options : Int) (difficulty : String) (s : σ) :
    Except GenError (List OptionItem × σ) :=
  generateCore shuffle df correct_idx total_options
    (difficultyPlan (strLower difficulty))
    (strLower difficulty == "easy") (strLower difficulty == "hard") s

/-- A faithful randomness source: every shuffle returns a permutation of its
input list, as Python's `random.shuffle` does. -/
def GoodShuffle {σ : Type} (shuffle : List Nat → σ → List Nat × σ) : Prop :=
  ∀ l s, (shuffle l s).1.Perm l

/-- The trivial randomness source: identity shuffle over a unit state.
Used to evaluate the engine on concrete inputs. -/
def idShuffle : List Nat → Unit → List Nat × Unit := fun l s => (l, s)

theorem idShuffle_good : GoodShuffle idShuffle := fun l _ => List.Perm.refl l

/-! ## Helper lemmas about the selection primitives -/

theorem mem_addElem_of_mem {sel : List Nat} {i x : Nat} (h : x ∈ sel) :
    x ∈ addElem sel i := by
  unfold addElem
  split
  · exact h
  · exact List.mem_append_left _ h

theorem mem_of_mem_addElem {sel : List Nat} {i x : Nat} (h : x ∈ addElem sel i) :
    x ∈ sel ∨ x = i := by
  unfold addElem at h
  split at h
  · exact Or.inl h
  · rcases List.mem_append.mp h with h' | h'
    · exact Or.inl h'
    · exact Or.inr (List.mem_singleton.mp h')

theorem addElem_nodup {sel : List Nat} {i : Nat} (h : sel.Nodup) :
    (addElem sel i).Nodup := by
  unfold addElem
  split
  · exact h
  · next hni =>
    refine List.nodup_append.mpr ⟨h, List.nodup_singleton i, ?_⟩
    intro a ha hb
    rw [List.mem_singleton.mp hb] at ha
    exact hni ha

theorem mem_addElem_self {sel : List Nat} {i : Nat} : i ∈ addElem sel i := by
  unfold addElem
  split
  · assumption
  · exact List.mem_append_right _ (List.mem_singleton_self i)

theorem addElem_length_le {sel : List Nat} {i : Nat} :
    (addElem sel i).length ≤ sel.length + 1 := by
  unfold addElem
  split
  · exact Nat.le_succ _
  · simp

theorem addCandidates_length_le {total : Nat} {sel : List Nat} {cands : List Nat}
    (h : sel.length < total) : (addCandidates total sel cands).length ≤ total := by
  induction cands generalizing sel with
  | nil => exact Nat.le_of_lt h
  | cons c rest ih =>
    unfold addCandidates
    have hlen : (addElem sel c).length ≤ total :=
      Nat.le_trans addElem_length_le (Nat.succ_le_of_lt h)
    split
    · exact hlen
    · next hlt =>
      exact ih (Nat.lt_of_le_of_ne hlen (fun he => hlt (Nat.le_of_eq he.symm)))

theorem mem_addCandidates_of_mem {total : Nat} {sel : List Nat} {cands : List Nat}
    {x : Nat} (h : x ∈ sel) : x ∈ addCandidates total sel cands := by
  induction cands generalizing sel with
  | nil => exact h
  | cons c rest ih =>
    unfold addCandidates
    split
    · exact mem_addElem_of_mem h
    · exact ih (mem_addElem_of_mem h)

theorem mem_of_mem_addCandidates {total : Nat} {sel : List Nat} {cands : List Nat}
    {x : Nat} (h : x ∈ addCandidates total sel cands) : x ∈ sel ∨ x ∈ cands := by
  induction cands generalizing sel with
  | nil => exact Or.inl h
  | cons c rest ih =>
    unfold addCandidates at h
    split at h
    · rcases mem_of_mem_addElem h with h' | h'
      · exact Or.inl h'
      · exact Or.inr (h' ▸ List.mem_cons_self c rest)
    · rcases ih h with h' | h'
      · rcases mem_of_mem_addElem h' with h'' | h''
        · exact Or.inl h''
        · exact Or.inr (h'' ▸ List.mem_cons_self c rest)
      · exact Or.inr (List.mem_cons_of_mem c h')

theorem addCandidates_nodup {total : Nat} {sel : List Nat} {cands : List Nat}
    (h : sel.Nodup) : (addCandidates total sel cands).Nodup := by
  induction cands generalizing sel with
  | nil => exact h
  | cons c rest ih =>
    unfold addCandidates
    split
    · exact addElem_nodup h
    · exact ih (addElem_nodup h)

theorem addCandidates_reach {total : Nat} {sel : List Nat} {cands : List Nat} :
    total ≤ (addCandidates total sel cands).length ∨
      ∀ x ∈ cands, x ∈ addCandidates total sel cands := by
  induction cands generalizing sel with
  | nil => exact Or.inr (fun x hx => absurd hx (List.not_mem_nil x))
  | cons c rest ih =>
    unfold addCandidates
    split
    · next hle => exact Or.inl hle
    · rcases @ih (addElem sel c) with h | h
      · exact Or.inl h
      · refine Or.inr (fun x hx => ?_)
        rcases List.mem_cons.mp hx with rfl | hx'
        · exact mem_addCandidates_of_mem mem_addElem_self
        · exact h x hx'


theorem mem_candidateIndices {df : DataFrame} {mask : Nat × Row → Bool}
    {exclude : List Nat} {x : Nat} (h : x ∈ candidateIndices df mask exclude) :
    (∃ r, (x, r) ∈ df ∧ mask (x, r) = true) ∧ x ∉ exclude := by
  unfold candidateIndices at h
  have h1 := List.mem_filter.mp h
  rcases List.mem_map.mp h1.1 with ⟨⟨i, r⟩, hp, hpx⟩
  cases hpx
  have h3 := List.mem_filter.mp hp
  refine ⟨⟨r, h3.1, h3.2⟩, ?_⟩
  intro hmem
  have h4 := h1.2
  simp [hmem] at h4

theorem locD_of_mem {df : DataFrame} {x : Nat} {r : Row}
    (hnd : (dfIndex df).Nodup) (hmem : (x, r) ∈ df) : locD df x = r := by
  induction df with
  | nil => cases hmem
  | cons p rest ih =>
    unfold dfIndex at hnd
    rw [List.map_cons, List.nodup_cons] at hnd
    by_cases hx : p.1 = x
    · rcases List.mem_cons.mp hmem with he | hrest
      · unfold locD loc
        rw [List.find?_cons_of_pos _ (by simp [hx])]
        rw [← he]
        rfl
      · exact absurd (hx ▸ List.mem_map.mpr ⟨(x, r), hrest, rfl⟩) hnd.1
    · rcases List.mem_cons.mp hmem with he | hrest
      · subst he
        exact absurd rfl hx
      · unfold locD loc
        rw [List.find?_cons_of_neg _ (by simp [hx])]
        exact ih hnd.2 hrest

theorem tryAdd_length_le {σ : Type} {shuffle : List Nat → σ → List Nat × σ}
    {df : DataFrame} {correctMake : String} {total : Nat} {mask : Nat × Row → Bool}
    {target : Nat} {dm : Bool} {st : List Nat × σ} (h : st.1.length ≤ total) :
    (tryAdd shuffle df correctMake total mask target dm st).1.length ≤ total := by
  rw [tryAdd]
  split
  · exact h
  · next hguard =>
    push_neg at hguard
    exact addCandidates_length_le hguard.1

theorem tryAdd_mem_of_mem {σ : Type} {shuffle : List Nat → σ → List Nat × σ}
    {df : DataFrame} {correctMake : String} {total : Nat} {mask : Nat × Row → Bool}
    {target : Nat} {dm : Bool} {st : List Nat × σ} {x : Nat} (h : x ∈ st.1) :
    x ∈ (tryAdd shuffle df correctMake total mask target dm st).1 := by
  rw [tryAdd]
  split
  · exact h
  · exact mem_addCandidates_of_mem h

theorem tryAdd_nodup {σ : Type} {shuffle : List Nat → σ → List Nat × σ}
    {df : DataFrame} {correctMake : String} {total : Nat} {mask : Nat × Row → Bool}
    {target : Nat} {dm : Bool} {st : List Nat × σ} (h : st.1.Nodup) :
    (tryAdd shuffle df correctMake total mask target dm st).1.Nodup := by
  rw [tryAdd]
  split
  · exact h
  · exact addCandidates_nodup h

theorem tryAdd_mem_cases {σ : Type} {shuffle : List Nat → σ → List Nat × σ}
    {df : DataFrame} {correctMake : String} {total : Nat} {mask : Nat × Row → Bool}
    {target : Nat} {dm : Bool} {st : List Nat × σ} {x : Nat}
    (hg : GoodShuffle shuffle)
    (h : x ∈ (tryAdd shuffle df correctMake total mask target dm st).1) :
    x ∈ st.1 ∨
      ((∃ r, (x, r) ∈ df ∧ mask (x, r) = true) ∧ x ∉ st.1 ∧
        (dm = true → (locD df x).make_en ≠ correctMake)) := by
  rw [tryAdd] at h
  split at h
  · exact Or.inl h
  · rcases mem_of_mem_addCandidates h with h' | h'
    · exact Or.inl h'
    · have hsh := List.mem_of_mem_take h'
      rw [(hg _ _).mem_iff] at hsh
      have hcand : x ∈ candidateIndices df mask st.1 ∧
          (dm = true → (locD df x).make_en ≠ correctMake) := by
        by_cases hdm : dm
        · rw [if_pos hdm] at hsh
          have hf := List.mem_filter.mp hsh
          refine ⟨hf.1, fun _ => ?_⟩
          have h2 := hf.2
          simp only [Bool.not_eq_true'] at h2
          exact beq_eq_false_iff_ne.mp h2
        · rw [if_neg hdm] at hsh
          exact ⟨hsh, fun hc => absurd hc hdm⟩
      have hmc := mem_candidateIndices hcand.1
      exact Or.inr ⟨hmc.1, hmc.2, hcand.2⟩

theorem fillPhase_length_le {σ : Type} {shuffle : List Nat → σ → List Nat × σ}
    {df : DataFrame} {correctMake : String} {total : Nat} {isEasy isHard : Bool}
    {st : List Nat × σ} (h : st.1.length ≤ total) :
    (fillPhase shuffle df correctMake total isEasy isHard st).1.length ≤ total := by
  rw [fillPhase]
  split
  · next hlt => exact addCandidates_length_le hlt
  · exact h

theorem fillPhase_mem_of_mem {σ : Type} {shuffle : List Nat → σ → List Nat × σ}
    {df : DataFrame} {correctMake : String} {total : Nat} {isEasy isHard : Bool}
    {st : List Nat × σ} {x : Nat} (h : x ∈ st.1) :
    x ∈ (fillPhase shuffle df correctMake total isEasy isHard st).1 := by
  rw [fillPhase]
  split
  · exact mem_addCandidates_of_mem h
  · exact h

theorem fillPhase_nodup {σ : Type} {shuffle : List Nat → σ → List Nat × σ}
    {df : DataFrame} {correctMake : String} {total : Nat} {isEasy isHard : Bool}
    {st : List Nat × σ} (h : st.1.Nodup) :
    (fillPhase shuffle df correctMake total isEasy isHard st).1.Nodup := by
  rw [fillPhase]
  split
  · exact addCandidates_nodup h
  · exact h

theorem fillPhase_mem_cases {σ : Type} {shuffle : List Nat → σ → List Nat × σ}
    {df : DataFrame} {correctMake : String} {total : Nat} {isEasy isHard : Bool}
    {st : List Nat × σ} {x : Nat} (hg : GoodShuffle shuffle)
    (h : x ∈ (fillPhase shuffle df correctMake total isEasy isHard st).1) :
    x ∈ st.1 ∨ x ∈ dfIndex df := by
  rw [fillPhase] at h
  split at h
  · rcases mem_of_mem_addCandidates h with h' | h'
    · exact Or.inl h'
    · have hperm := hg ((dfIndex df).filter (fun i => !st.1.contains i)) st.2
      have hrem : x ∈ ((dfIndex df).filter (fun i => !st.1.contains i)) := by
        split at h'
        · rcases List.mem_append.mp h' with h'' | h'' <;>
            exact hperm.mem_iff.mp (List.mem_filter.mp h'').1
        · split at h'
          · rcases List.mem_append.mp h' with h'' | h'' <;>
              exact hperm.mem_iff.mp (List.mem_filter.mp h'').1
          · exact hperm.mem_iff.mp h'
      exact Or.inr (List.mem_filter.mp hrem).1
  · exact Or.inl h

theorem clampTotal_ge_two (t : Int) (n : Nat) : 2 ≤ clampTotal t n := by
  unfold clampTotal
  have h : (2 : Int) ≤ max 2 (min t n) := le_max_left _ _
  omega

theorem clampTotal_le {t : Int} {n : Nat} (h : 2 ≤ n) : clampTotal t n ≤ n := by
  unfold clampTotal
  have h1 : min t (n : Int) ≤ (n : Int) := min_le_right _ _
  have h2 : max 2 (min t (n : Int)) ≤ (n : Int) := max_le (by exact_mod_cast h) h1
  omega

theorem clampTotal_eq_of_gt {t : Int} {n : Nat} (h2 : 2 ≤ n) (h : (n : Int) < t) :
    clampTotal t n = n := by
  unfold clampTotal
  rw [min_eq_right (le_of_lt h), max_eq_right (by exact_mod_cast h2)]
  omega

theorem fillPhase_reach {σ : Type} {shuffle : List Nat → σ → List Nat × σ}
    {df : DataFrame} {correctMake : String} {total : Nat} {isEasy isHard : Bool}
    {st : List Nat × σ} (hg : GoodShuffle shuffle) :
    total ≤ (fillPhase shuffle df correctMake total isEasy isHard st).1.length ∨
      ∀ x ∈ dfIndex df, x ∈ (fillPhase shuffle df correctMake total isEasy isHard st).1 := by
  rw [fillPhase]
  split
  · next hlt =>
    rcases addCandidates_reach with h | h
    · exact Or.inl h
    · refine Or.inr (fun x hx => ?_)
      by_cases hmem : x ∈ st.1
      · exact mem_addCandidates_of_mem hmem
      · have hrem : x ∈ (dfIndex df).filter (fun i => !st.1.contains i) :=
          List.mem_filter.mpr ⟨hx, by simp [hmem]⟩
        have hsh : x ∈ (shuffle ((dfIndex df).filter (fun i => !st.1.contains i)) st.2).1 :=
          (hg _ _).mem_iff.mpr hrem
        apply h
        split
        · by_cases hp : sharesMake df correctMake x
          · exact List.mem_append_right _ (List.mem_filter.mpr ⟨hsh, hp⟩)
          · exact List.mem_append_left _ (List.mem_filter.mpr ⟨hsh, by simp [hp]⟩)
        · split
          · by_cases hp : sharesMake df correctMake x
            · exact List.mem_append_left _ (List.mem_filter.mpr ⟨hsh, hp⟩)
            · exact List.mem_append_right _ (List.mem_filter.mpr ⟨hsh, by simp [hp]⟩)
          · exact hsh
  · next hge => exact Or.inl (Nat.le_of_not_lt hge)

theorem selectedAfterPhases_nodup {σ : Type} {shuffle : List Nat → σ → List Nat × σ}
    {df : DataFrame} {correct_idx : Nat} {total : Nat} {plan : Plan}
    {isEasy isHard : Bool} {s : σ} :
    (selectedAfterPhases shuffle df correct_idx total plan isEasy isHard s).1.Nodup :=
  fillPhase_nodup (tryAdd_nodup (tryAdd_nodup (tryAdd_nodup (List.nodup_singleton _))))

theorem selectedAfterPhases_mem_correct {σ : Type} {shuffle : List Nat → σ → List Nat × σ}
    {df : DataFrame} {correct_idx : Nat} {total : Nat} {plan : Plan}
    {isEasy isHard : Bool} {s : σ} :
    correct_idx ∈ (selectedAfterPhases shuffle df correct_idx total plan isEasy isHard s).1 :=
  fillPhase_mem_of_mem (tryAdd_mem_of_mem (tryAdd_mem_of_mem (tryAdd_mem_of_mem
    (List.mem_singleton_self _))))

theorem selectedAfterPhases_length_le {σ : Type} {shuffle : List Nat → σ → List Nat × σ}
    {df : DataFrame} {correct_idx : Nat} {total : Nat} {plan : Plan}
    {isEasy isHard : Bool} {s : σ} (h : 1 ≤ total) :
    (selectedAfterPhases shuffle df correct_idx total plan isEasy isHard s).1.length ≤ total :=
  fillPhase_length_le (tryAdd_length_le (tryAdd_length_le (tryAdd_length_le (by simpa))))

theorem selectedAfterPhases_subset {σ : Type} {shuffle : List Nat → σ → List Nat × σ}
    {df : DataFrame} {correct_idx : Nat} {total : Nat} {plan : Plan}
    {isEasy isHard : Bool} {s : σ} (hg : GoodShuffle shuffle)
    (hci : correct_idx ∈ dfIndex df) :
    ∀ x ∈ (selectedAfterPhases shuffle df correct_idx total plan isEasy isHard s).1,
      x ∈ dfIndex df := by
  intro x hx
  rcases fillPhase_mem_cases hg hx with h3 | h3
  · rcases tryAdd_mem_cases hg h3 with h2 | h2
    · rcases tryAdd_mem_cases hg h2 with h1 | h1
      · rcases tryAdd_mem_cases hg h1 with h0 | h0
        · rw [List.mem_singleton.mp h0]
          exact hci
        · rcases h0.1 with ⟨r, hr, _⟩
          exact List.mem_map.mpr ⟨(x, r), hr, rfl⟩
      · rcases h1.1 with ⟨r, hr, _⟩
        exact List.mem_map.mpr ⟨(x, r), hr, rfl⟩
    · rcases h2.1 with ⟨r, hr, _⟩
      exact List.mem_map.mpr ⟨(x, r), hr, rfl⟩
  · exact h3

theorem selectedAfterPhases_reach {σ : Type} {shuffle : List Nat → σ → List Nat × σ}
    {df : DataFrame} {correct_idx : Nat} {total : Nat} {plan : Plan}
    {isEasy isHard : Bool} {s : σ} (hg : GoodShuffle shuffle) :
    total ≤ (selectedAfterPhases shuffle df correct_idx total plan isEasy isHard s).1.length ∨
      ∀ x ∈ dfIndex df,
        x ∈ (selectedAfterPhases shuffle df correct_idx total plan isEasy isHard s).1 :=
  fillPhase_reach hg

theorem generateCore_cases {σ : Type} (shuffle : List Nat → σ → List Nat × σ)
    (df : DataFrame) (ci : Nat) (t : Int) (plan : Plan) (isEasy isHard : Bool) (s : σ) :
    (df.length = 0 ∧ generateCore shuffle df ci t plan isEasy isHard s = .error .emptyDataset) ∨
    (df.length ≠ 0 ∧ ci ∉ dfIndex df ∧
      generateCore shuffle df ci t plan isEasy isHard s = .error .unknownRecord) ∨
    (df.length ≠ 0 ∧ ci ∈ dfIndex df ∧
      (generateCore shuffle df ci t plan isEasy isHard s = .error .insufficientCandidates ∨
       ∃ r, generateCore shuffle df ci t plan isEasy isHard s = .ok r)) := by
  rw [generateCore]
  by_cases h0 : df.length = 0
  · rw [if_pos h0]
    exact Or.inl ⟨h0, rfl⟩
  · rw [if_neg h0]
    by_cases hci : ci ∈ dfIndex df
    · rw [if_pos hci]
      refine Or.inr (Or.inr ⟨h0, hci, ?_⟩)
      split
      · exact Or.inl rfl
      · exact Or.inr ⟨_, rfl⟩
    · rw [if_neg hci]
      exact Or.inr (Or.inl ⟨h0, hci, rfl⟩)

theorem generateCore_empty_iff {σ : Type} {shuffle : List Nat → σ → List Nat × σ}
    {df : DataFrame} {ci : Nat} {t : Int} {plan : Plan} {isEasy isHard : Bool} {s : σ} :
    generateCore shuffle df ci t plan isEasy isHard s = .error .emptyDataset ↔
      df.length = 0 := by
  constructor
  · intro h
    rcases generateCore_cases shuffle df ci t plan isEasy isHard s with
      ⟨h0, _⟩ | ⟨_, _, he⟩ | ⟨_, _, he | ⟨r, he⟩⟩
    · exact h0
    · rw [he] at h
      simp at h
    · rw [he] at h
      simp at h
    · rw [he] at h
      simp at h
  · intro h0
    rw [generateCore, if_pos h0]

theorem generateCore_unknown_iff {σ : Type} {shuffle : List Nat → σ → List Nat × σ}
    {df : DataFrame} {ci : Nat} {t : Int} {plan : Plan} {isEasy isHard : Bool} {s : σ} :
    generateCore shuffle df ci t plan isEasy isHard s = .error .unknownRecord ↔
      (df.length ≠ 0 ∧ ci ∉ dfIndex df) := by
  constructor
  · intro h
    rcases generateCore_cases shuffle df ci t plan isEasy isHard s with
      ⟨_, he⟩ | ⟨h0, hci, _⟩ | ⟨_, _, he | ⟨r, he⟩⟩
    · rw [he] at h
      simp at h
    · exact ⟨h0, hci⟩
    · rw [he] at h
      simp at h
    · rw [he] at h
      simp at h
  · intro h0
    rw [generateCore, if_neg h0.1, if_neg h0.2]

theorem generateCore_insufficient_imp {σ : Type} {shuffle : List Nat → σ → List Nat × σ}
    {df : DataFrame} {ci : Nat} {t : Int} {plan : Plan} {isEasy isHard : Bool} {s : σ}
    (h : generateCore shuffle df ci t plan isEasy isHard s = .error .insufficientCandidates) :
    df.length ≠ 0 ∧ ci ∈ dfIndex df := by
  rcases generateCore_cases shuffle df ci t plan isEasy isHard s with
    ⟨_, he⟩ | ⟨_, _, he⟩ | ⟨h0, hci, _⟩
  · rw [he] at h
    simp at h
  · rw [he] at h
    simp at h
  · exact ⟨h0, hci⟩

theorem generateCore_ok_spec {σ : Type} {shuffle : List Nat → σ → List Nat × σ}
    {df : DataFrame} {ci : Nat} {t : Int} {plan : Plan} {isEasy isHard : Bool}
    {s : σ} {l : List OptionItem} {s' : σ} (hg : GoodShuffle shuffle)
    (h : generateCore shuffle df ci t plan isEasy isHard s = .ok (l, s')) :
    l.length = clampTotal t df.length ∧ (l.map OptionItem.row_idx).Nodup ∧
      ci ∈ l.map OptionItem.row_idx := by
  rw [generateCore] at h
  split at h
  · cases h
  · split at h
    · split at h
      · cases h
      · next hge =>
        rw [finalOptions] at h
        injection h with h1
        rw [Prod.mk.injEq] at h1
        obtain ⟨hl, _⟩ := h1
        subst hl
        have h2 := clampTotal_ge_two t df.length
        have hlen_le : (selectedAfterPhases shuffle df ci (clampTotal t df.length)
            plan isEasy isHard s).1.length ≤ clampTotal t df.length :=
          selectedAfterPhases_length_le (by omega)
        have hleneq : (selectedAfterPhases shuffle df ci (clampTotal t df.length)
            plan isEasy isHard s).1.length = clampTotal t df.length :=
          Nat.le_antisymm hlen_le (Nat.le_of_not_lt hge)
        have hperm := hg (selectedAfterPhases shuffle df ci (clampTotal t df.length)
            plan isEasy isHard s).1
          (selectedAfterPhases shuffle df ci (clampTotal t df.length) plan isEasy isHard s).2
        have hshlen : (shuffle (selectedAfterPhases shuffle df ci (clampTotal t df.length)
            plan isEasy isHard s).1
            (selectedAfterPhases shuffle df ci (clampTotal t df.length)
              plan isEasy isHard s).2).1.length = clampTotal t df.length :=
          hperm.length_eq.trans hleneq
        rw [List.take_of_length_le (Nat.le_of_eq hshlen)]
        rw [List.map_map]
        have hcomp : (OptionItem.row_idx ∘ fun i => OptionItem.mk i
            (build_option_label (locD df i))) = fun i => i := rfl
        rw [hcomp, List.map_id']
        refine ⟨by rw [List.length_map, hshlen], ?_, ?_⟩
        · exact hperm.symm.nodup selectedAfterPhases_nodup
        · exact hperm.mem_iff.mpr selectedAfterPhases_mem_correct
    · cases h

theorem generateCore_ok_of_nodup {σ : Type} {shuffle : List Nat → σ → List Nat × σ}
    {df : DataFrame} {ci : Nat} {t : Int} {plan : Plan} {isEasy isHard : Bool} {s : σ}
    (hg : GoodShuffle shuffle) (hnd : (dfIndex df).Nodup) (h2 : 2 ≤ df.length)
    (hci : ci ∈ dfIndex df) :
    ∃ r, generateCore shuffle df ci t plan isEasy isHard s = .ok r := by
  have h0 : ¬ df.length = 0 := by omega
  rw [generateCore, if_neg h0, if_pos hci]
  have hfull : ¬ ((selectedAfterPhases shuffle df ci (clampTotal t df.length)
      plan isEasy isHard s).1.length < clampTotal t df.length) := by
    rcases (selectedAfterPhases_reach hg :
        clampTotal t df.length ≤ (selectedAfterPhases shuffle df ci
          (clampTotal t df.length) plan isEasy isHard s).1.length ∨
        ∀ x ∈ dfIndex df, x ∈ (selectedAfterPhases shuffle df ci
          (clampTotal t df.length) plan isEasy isHard s).1) with h | h
    · exact Nat.not_lt.mpr h
    · have hsub : dfIndex df ⊆ (selectedAfterPhases shuffle df ci
          (clampTotal t df.length) plan isEasy isHard s).1 := fun x hx => h x hx
      have hle := (List.subperm_of_subset hnd hsub).length_le
      have hdflen : (dfIndex df).length = df.length := List.length_map df Prod.fst
      have := @clampTotal_le t df.length h2
      omega
  rw [if_neg hfull]
  exact ⟨_, rfl⟩

/-! ## Concrete fixtures for witnesses -/

/-- Fixture row: a Ford Mustang 2013 (no variant, no localized model name). -/
def rowA : Row := ⟨"Ford", "포드", "Mustang", "", "2013", ""⟩

/-- Fixture row: a Ford Focus 2014. -/
def rowB : Row := ⟨"Ford", "포드", "Focus", "", "2014", ""⟩

/-- Fixture row: a Kia Sorento 2013 with a variant. -/
def rowC : Row := ⟨"Kia", "기아", "Sorento", "쏘렌토", "2013", "EX"⟩

/-- Fixture row: a Ford Mustang 2015 (same model as `rowA`, different year). -/
def rowD : Row := ⟨"Ford", "포드", "Mustang", "", "2015", ""⟩

/-- A three-record dataset with distinct labels. -/
def dfW : DataFrame := [(0, rowA), (1, rowB), (2, rowC)]

/-- A four-record dataset (adds a same-model different-year record). -/
def dfW4 : DataFrame := [(0, rowA), (1, rowB), (2, rowC), (3, rowD)]

/-- A single-record dataset. -/
def dfSingle : DataFrame := [(0, rowA)]

/-- The options the engine produces on `dfW` with the identity shuffle,
`correct_idx = 0`, `total_options = 10`, medium difficulty. -/
def optsW : List OptionItem :=
  [⟨0, "포드(Ford) Mustang 2013"⟩, ⟨1, "포드(Ford) Focus 2014"⟩,
   ⟨2, "기아(Kia) 쏘렌토(Sorento) 2013 EX"⟩]

/-! ## Claims -/

/-- C1: whenever `generate_options` returns (for any dataset, correct index,
requested count, difficulty and any faithful rng), the returned list has
length `max(2, min(total_options, |dataset|))` (= `clampTotal`). -/
theorem C1_length_eq_clamp {σ : Type} (shuffle : List Nat → σ → List Nat × σ)
    (df : DataFrame) (ci : Nat) (t : Int) (difficulty : String) (s : σ)
    (l : List OptionItem) (s' : σ) (hg : GoodShuffle shuffle)
    (h : generate_options shuffle df ci t difficulty s = .ok (l, s')) :
    l.length = clampTotal t df.length := by
  rw [generate_options] at h
  exact (generateCore_ok_spec hg h).1

theorem C1_length_eq_clamp_witness :
    generate_options idShuffle dfW 0 10 "medium" () = .ok (optsW, ()) ∧
    optsW.length = clampTotal 10 dfW.length :=
  ⟨by decide, C1_length_eq_clamp idShuffle dfW 0 10 "medium" () optsW () idShuffle_good (by decide)⟩

/-- C2: whenever `generate_options` returns, the returned list contains the
correct identifier exactly once and its `row_idx` values are pairwise
distinct. -/
theorem C2_correct_once_distinct {σ : Type} (shuffle : List Nat → σ → List Nat × σ)
    (df : DataFrame) (ci : Nat) (t : Int) (difficulty : String) (s : σ)
    (l : List OptionItem) (s' : σ) (hg : GoodShuffle shuffle)
    (h : generate_options shuffle df ci t difficulty s = .ok (l, s')) :
    List.count ci (l.map OptionItem.row_idx) = 1 ∧ (l.map OptionItem.row_idx).Nodup := by
  rw [generate_options] at h
  obtain ⟨_, hnd, hmem⟩ := generateCore_ok_spec hg h
  exact ⟨List.count_eq_one_of_mem hnd hmem, hnd⟩

theorem C2_correct_once_distinct_witness :
    List.count 0 (optsW.map OptionItem.row_idx) = 1 ∧
      (optsW.map OptionItem.row_idx).Nodup :=
  C2_correct_once_distinct idShuffle dfW 0 10 "medium" () optsW () idShuffle_good (by decide)

/-- C3: `generate_options` raises `EmptyDatasetError` exactly on an empty
dataset, `UnknownRecordError` exactly when the dataset is non-empty and the
correct index is absent, raises `InsufficientCandidatesError` only in the
remaining case, and any returned (non-error) list has exactly the clamped
length with distinct entries — never a shorter partial result. -/
theorem C3_error_classification {σ : Type} (shuffle : List Nat → σ → List Nat × σ)
    (df : DataFrame) (ci : Nat) (t : Int) (difficulty : String) (s : σ)
    (hg : GoodShuffle shuffle) :
    (generate_options shuffle df ci t difficulty s = .error .emptyDataset ↔
      df.length = 0) ∧
    (generate_options shuffle df ci t difficulty s = .error .unknownRecord ↔
      (df.length ≠ 0 ∧ ci ∉ dfIndex df)) ∧
    (generate_options shuffle df ci t difficulty s = .error .insufficientCandidates →
      (df.length ≠ 0 ∧ ci ∈ dfIndex df)) ∧
    (∀ (l : List OptionItem) (s' : σ),
      generate_options shuffle df ci t difficulty s = .ok (l, s') →
        l.length = clampTotal t df.length ∧ (l.map OptionItem.row_idx).Nodup) := by
  rw [generate_options]
  refine ⟨generateCore_empty_iff, generateCore_unknown_iff, generateCore_insufficient_imp, ?_⟩
  intro l s' h
  obtain ⟨h1, h2, _⟩ := generateCore_ok_spec hg h
  exact ⟨h1, h2⟩

theorem C3_error_classification_witness :
    (generate_options idShuffle dfW 0 10 "medium" () = .error .emptyDataset ↔
      dfW.length = 0) ∧
    (generate_options idShuffle dfW 0 10 "medium" () = .error .unknownRecord ↔
      (dfW.length ≠ 0 ∧ 0 ∉ dfIndex dfW)) ∧
    (generate_options idShuffle dfW 0 10 "medium" () = .error .insufficientCandidates →
      (dfW.length ≠ 0 ∧ 0 ∈ dfIndex dfW)) ∧
    (∀ (l : List OptionItem) (s' : Unit),
      generate_options idShuffle dfW 0 10 "medium" () = .ok (l, s') →
        l.length = clampTotal 10 dfW.length ∧ (l.map OptionItem.row_idx).Nodup) :=
  C3_error_classification idShuffle dfW 0 10 "medium" () idShuffle_good

/-- C4: `generate_options` is deterministic — with identical inputs and the
rng in an identical state, two calls return identical results.  In the
embedding all of the engine's state is the explicitly threaded rng state, so
determinism is equality of outputs at equal states. -/
theorem C4_deterministic {σ : Type} (shuffle : List Nat → σ → List Nat × σ)
    (df : DataFrame) (ci : Nat) (t : Int) (difficulty : String) (s₁ s₂ : σ)
    (h : s₁ = s₂) :
    generate_options shuffle df ci t difficulty s₁ =
      generate_options shuffle df ci t difficulty s₂ := by
  rw [h]

theorem C4_deterministic_witness :
    generate_options idShuffle dfW 0 10 "medium" () =
      generate_options idShuffle dfW 0 10 "medium" () :=
  C4_deterministic idShuffle dfW 0 10 "medium" () () rfl

/-- C5 counterexample: on the non-empty single-record dataset containing the
correct index, requesting 5 > 1 options does NOT succeed — the clamp
`max(2, min(5, 1)) = 2` asks for more options than the one record can supply
and the engine raises `InsufficientCandidatesError` (as the spec's own
single-record example predicts). -/
theorem C5_single_record_fails :
    dfSingle.length = 1 ∧ (1 : Int) < 5 ∧ 0 ∈ dfIndex dfSingle ∧
    GoodShuffle idShuffle ∧
    generate_options idShuffle dfSingle 0 5 "medium" () =
      .error .insufficientCandidates :=
  ⟨rfl, by decide, by decide, idShuffle_good, by decide⟩

/-- C5 (amended): for every dataset with at least 2 records (distinct
identifiers, per the data model) containing the correct index, a request
larger than the dataset size succeeds and is clamped to the dataset size. -/
theorem C5_overlarge_request_clamps {σ : Type} (shuffle : List Nat → σ → List Nat × σ)
    (df : DataFrame) (ci : Nat) (t : Int) (difficulty : String) (s : σ)
    (hg : GoodShuffle shuffle) (hnd : (dfIndex df).Nodup) (h2 : 2 ≤ df.length)
    (hci : ci ∈ dfIndex df) (hgt : (df.length : Int) < t) :
    ∃ (l : List OptionItem) (s' : σ),
      generate_options shuffle df ci t difficulty s = .ok (l, s') ∧
        l.length = df.length := by
  rw [generate_options]
  obtain ⟨⟨l, s'⟩, hr⟩ := (generateCore_ok_of_nodup hg hnd h2 hci :
    ∃ r, generateCore shuffle df ci t (difficultyPlan (strLower difficulty))
      (strLower difficulty == "easy") (strLower difficulty == "hard") s = .ok r)
  refine ⟨l, s', hr, ?_⟩
  have hlen := (generateCore_ok_spec hg hr).1
  rw [hlen, clampTotal_eq_of_gt h2 hgt]

theorem C5_overlarge_request_clamps_witness :
    ∃ (l : List OptionItem) (s' : Unit),
      generate_options idShuffle dfW 0 10 "medium" () = .ok (l, s') ∧
        l.length = dfW.length :=
  C5_overlarge_request_clamps idShuffle dfW 0 10 "medium" () idShuffle_good
    (by decide) (by decide) (by decide) (by decide)

/-- C6: the `same_year` quota sub-phase run with the easy-difficulty
different-make exclusion (exactly how `generate_options` invokes it when
`difficulty = "easy"`) only ever adds identifiers whose record shares the
correct record's year and has a different make. -/
theorem C6_easy_same_year_different_make {σ : Type}
    (shuffle : List Nat → σ → List Nat × σ) (df : DataFrame) (ci : Nat)
    (correctRow : Row) (total target : Nat) (st : List Nat × σ) (x : Nat)
    (hg : GoodShuffle shuffle) (hnd : (dfIndex df).Nodup)
    (hx : x ∈ (tryAdd shuffle df correctRow.make_en total
      (sameYearMask ci correctRow) target true st).1)
    (hnew : x ∉ st.1) :
    (locD df x).year = correctRow.year ∧
      (locD df x).make_en ≠ correctRow.make_en := by
  rcases tryAdd_mem_cases hg hx with h | h
  · exact absurd h hnew
  · obtain ⟨⟨r, hr, hmask⟩, _, hdm⟩ := h
    unfold sameYearMask at hmask
    simp only [Bool.and_eq_true, beq_iff_eq, bne_iff_ne] at hmask
    rw [locD_of_mem hnd hr]
    exact ⟨hmask.1, by rw [← locD_of_mem hnd hr]; exact hdm rfl⟩

theorem C6_easy_same_year_different_make_witness :
    2 ∈ (tryAdd idShuffle dfW rowA.make_en 10 (sameYearMask 0 rowA) 1 true
      ([0], ())).1 ∧
    2 ∉ [0] ∧
    ((locD dfW 2).year = rowA.year ∧ (locD dfW 2).make_en ≠ rowA.make_en) :=
  ⟨by decide, by decide,
    C6_easy_same_year_different_make idShuffle dfW 0 rowA 10 1 ([0], ()) 2
      idShuffle_good (by decide) (by decide) (by decide)⟩

/-- C7: the `same_model` quota sub-phase (invoked by `generate_options` with
the different-make exclusion off, for every difficulty) only ever adds
identifiers whose record shares the correct record's model, differs in year
from the correct record, and is not the correct record itself. -/
theorem C7_same_model_different_year {σ : Type}
    (shuffle : List Nat → σ → List Nat × σ) (df : DataFrame) (ci : Nat)
    (correctRow : Row) (total target : Nat) (st : List Nat × σ) (x : Nat)
    (hg : GoodShuffle shuffle) (hnd : (dfIndex df).Nodup)
    (hx : x ∈ (tryAdd shuffle df correctRow.make_en total
      (sameModelMask ci correctRow) target false st).1)
    (hnew : x ∉ st.1) :
    (locD df x).model_en = correctRow.model_en ∧
      (locD df x).year ≠ correctRow.year ∧ x ≠ ci := by
  rcases tryAdd_mem_cases hg hx with h | h
  · exact absurd h hnew
  · obtain ⟨⟨r, hr, hmask⟩, _, _⟩ := h
    unfold sameModelMask at hmask
    simp only [Bool.and_eq_true, beq_iff_eq, bne_iff_ne] at hmask
    rw [locD_of_mem hnd hr]
    exact ⟨hmask.1.1, hmask.1.2, hmask.2⟩

theorem C7_same_model_different_year_witness :
    3 ∈ (tryAdd idShuffle dfW4 rowA.make_en 10 (sameModelMask 0 rowA) 2 false
      ([0], ())).1 ∧
    3 ∉ [0] ∧
    ((locD dfW4 3).model_en = rowA.model_en ∧
      (locD dfW4 3).year ≠ rowA.year ∧ 3 ≠ 0) :=
  ⟨by decide, by decide,
    C7_same_model_different_year idShuffle dfW4 0 rowA 10 2 ([0], ()) 3
      idShuffle_good (by decide) (by decide) (by decide)⟩

/-- C8: the difficulty string is read case-insensitively (two spellings with
the same lower-casing behave identically), and any difficulty whose
lower-cased form is not `easy`, `medium` or `hard` behaves exactly like
`medium` — never an error. -/
theorem C8_difficulty_fallback {σ : Type} (shuffle : List Nat → σ → List Nat × σ)
    (df : DataFrame) (ci : Nat) (t : Int) (s : σ) :
    (∀ d₁ d₂ : String, strLower d₁ = strLower d₂ →
      generate_options shuffle df ci t d₁ s = generate_options shuffle df ci t d₂ s) ∧
    (∀ d : String, strLower d ≠ "easy" → strLower d ≠ "medium" → strLower d ≠ "hard" →
      generate_options shuffle df ci t d s =
        generate_options shuffle df ci t "medium" s) := by
  constructor
  · intro d₁ d₂ h
    rw [generate_options, generate_options, h]
  · intro d h1 h2 h3
    rw [generate_options, generate_options]
    have hm : strLower "medium" = "medium" := by decide
    have hp : difficultyPlan (strLower d) = difficultyPlan "medium" := by
      rw [difficultyPlan, difficultyPlan, if_neg h1, if_neg h2, if_neg h3,
        if_neg (by decide : ¬ ("medium" : String) = "easy"), if_pos rfl]
    have hme : (("medium" : String) == "easy") = false := by decide
    have hmh : (("medium" : String) == "hard") = false := by decide
    rw [hm, hp, beq_eq_false_iff_ne.mpr h1, beq_eq_false_iff_ne.mpr h3, hme, hmh]

theorem C8_difficulty_fallback_witness :
    generate_options idShuffle dfW 0 10 "MEDium" () =
      generate_options idShuffle dfW 0 10 "medium" () ∧
    generate_options idShuffle dfW 0 10 "bizarre" () =
      generate_options idShuffle dfW 0 10 "medium" () :=
  ⟨(C8_difficulty_fallback idShuffle dfW 0 10 ()).1 "MEDium" "medium" (by decide),
   (C8_difficulty_fallback idShuffle dfW 0 10 ()).2 "bizarre"
     (by decide) (by decide) (by decide)⟩

/-- Modelled from the spec: the §4.1 Label Formatter contract, stated in the
spec's own words — four segments (bilingual make, bilingual model, year,
variant), space-joined, every empty segment skipped.  Used only to compare
against the source-derived `build_option_label`. -/
def labelFormatterSpec (row : Row) : String :=
  let makeSeg := if row.make_ko ≠ "" then row.make_ko ++ "(" ++ row.make_en ++ ")"
    else row.make_en
  let modelSeg := if row.model_ko ≠ "" then row.model_ko ++ "(" ++ row.model_en ++ ")"
    else row.model_en
  String.intercalate " " (([makeSeg, modelSeg, row.year, row.variant]).filter
    (fun seg => seg ≠ ""))

/-- C9: `build_option_label` meets the spec's Label Formatter contract on
every record: bilingual `"{localized}({english})"` make and model segments
when the localized name is non-empty, the variant included only when
non-empty, all segments space-joined with empty segments skipped.  (Purity is
inherent: the embedding is a function of the row alone.) -/
theorem C9_label_formatter_spec (row : Row) :
    build_option_label row = labelFormatterSpec row := by
  rw [build_option_label, labelFormatterSpec]
  by_cases hv : row.variant = ""
  · simp [hv, List.filter_cons]
  · simp [hv, List.filter_cons]

/-- C10: for every dataset with at least two records (with pairwise-distinct
identifiers, as the data model requires) containing the correct index,
`generate_options` succeeds for every requested count, difficulty and faithful
rng — in particular it never raises `InsufficientCandidatesError` there; the
error is reachable only below two distinct identifiers. -/
theorem C10_no_insufficient_when_two {σ : Type}
    (shuffle : List Nat → σ → List Nat × σ) (df : DataFrame) (ci : Nat)
    (t : Int) (difficulty : String) (s : σ) (hg : GoodShuffle shuffle)
    (hnd : (dfIndex df).Nodup) (h2 : 2 ≤ df.length) (hci : ci ∈ dfIndex df) :
    ∃ r, generate_options shuffle df ci t difficulty s = .ok r := by
  rw [generate_options]
  exact generateCore_ok_of_nodup hg hnd h2 hci

theorem C10_no_insufficient_when_two_witness :
    ∃ r, generate_options idShuffle dfW 0 10 "hard" () = .ok r :=
  C10_no_insufficient_when_two idShuffle dfW 0 10 "hard" () idShuffle_good
    (by decide) (by decide) (by decide)
